import Mathlib

/-!
# A verification model of `erikh/dnsserver`

This file gives a shallow embedding of the Go repository `erikh/dnsserver`
(files `dnsserver.go`, `db/db.go`, `db/map.go`, `db/types.go`) and proves
properties of the embedded program.

Two layers are modelled:

* a value-level layer (`DnsServer` namespace): the in-memory `db.Map` store is
  an association list with Go-map semantics (unique keys, upsert overwrites),
  `net.IP` is a byte list, and the request handler `ServeDNS` is a pure
  function from store state and request message to reply message.  This layer
  is adequate for all scenarios in which no aliased mutation occurs.

* a pointer-level layer (`DnsServer.Ptr` namespace): `net.IP` values and
  `*db.SRVRecord` pointers are modelled as locations into an explicit heap, so
  that Go's aliasing of slices (`rec[:]` shares the backing array) and of
  pointers (the store retains the caller's `*SRVRecord`) is captured exactly.
  This layer settles the frame/aliasing claims about `ListA`, `ListSRV`,
  `SetSRV` and `GetSRV`.
-/

set_option autoImplicit false

namespace DnsServer

/-! ## Association lists with Go-map semantics

`db.Map` stores its records in Go maps (`map[string]net.IP`,
`map[string]*SRVRecord`).  A Go map has unique keys; assignment `m[k] = v`
overwrites, and `delete(m, k)` on an absent key is a no-op.  We model a Go map
as an association list and give the three primitive operations with exactly
those semantics. -/

/-- Look a key up in an association list (Go `v, ok := m[k]`). -/
def lookupKey {α : Type} (k : String) : List (String × α) → Option α
  | [] => none
  | p :: rest => if p.1 = k then some p.2 else lookupKey k rest

/-- Remove every binding of a key (Go `delete(m, k)`; a Go map holds at most
one binding per key). -/
def eraseKey {α : Type} (k : String) : List (String × α) → List (String × α)
  | [] => []
  | p :: rest => if p.1 = k then eraseKey k rest else p :: eraseKey k rest

/-- Overwrite-or-insert a binding (Go `m[k] = v`). -/
def upsert {α : Type} (k : String) (v : α) (recs : List (String × α)) : List (String × α) :=
  (k, v) :: eraseKey k recs

/-! ## `db` package: data types -/

/-- `net.IP` at the value level: the byte sequence of the address. -/
abbrev IP : Type := List Nat

/-- `db.SRVRecord` (`db/types.go`): the data segment of a SRV record. -/
structure SRVRecord where
  Port : Nat
  Host : String
  deriving DecidableEq, Repr

/-- `db.SRVRecord.Equal` (`db/types.go`). -/
def SRVRecord.Equal (s s2 : SRVRecord) : Bool :=
  s.Port == s2.Port && s.Host == s2.Host

/-- Errors produced behind the `db.DB` interface: `db.ErrNotFound`, or any
other backend fault (`db/db.go` only fixes `ErrNotFound`; a custom `DB` may
return anything else). -/
inductive DBError where
  | notFound
  | backend (msg : String)
  deriving DecidableEq, Repr

/-! ## `db.Map`: the in-memory store, value level (`db/map.go`)

The mutexes of the Go code only serialize access and are invisible to the
sequential semantics modelled here. -/

/-- The two record tables of `db.Map`. -/
structure Map where
  aRecords : List (String × IP)
  srvRecords : List (String × SRVRecord)
  deriving DecidableEq

/-- `db.NewMap`: both tables empty. -/
def NewMap : Map := ⟨[], []⟩

/-- `Map.SetA`: `m.aRecords[host] = ip; return nil`. -/
def Map.SetA (m : Map) (host : String) (ip : IP) : Map × Option DBError :=
  ({ m with aRecords := upsert host ip m.aRecords }, none)

/-- `Map.DeleteA`: `delete(m.aRecords, host); return nil`. -/
def Map.DeleteA (m : Map) (host : String) : Map × Option DBError :=
  ({ m with aRecords := eraseKey host m.aRecords }, none)

/-- `Map.GetA`: table lookup, `ErrNotFound` when absent. -/
def Map.GetA (m : Map) (fqdn : String) : Except DBError IP :=
  match lookupKey fqdn m.aRecords with
  | some val => .ok val
  | none => .error .notFound

/-- `Map.SetSRV`: `m.srvRecords[spec] = srv; return nil`. -/
def Map.SetSRV (m : Map) (spec : String) (srv : SRVRecord) : Map × Option DBError :=
  ({ m with srvRecords := upsert spec srv m.srvRecords }, none)

/-- `Map.GetSRV`: table lookup, `ErrNotFound` when absent. -/
def Map.GetSRV (m : Map) (spec : String) : Except DBError SRVRecord :=
  match lookupKey spec m.srvRecords with
  | some srv => .ok srv
  | none => .error .notFound

/-- `Map.DeleteSRV`: `delete(m.srvRecords, spec); return nil`. -/
def Map.DeleteSRV (m : Map) (spec : String) : Map × Option DBError :=
  ({ m with srvRecords := eraseKey spec m.srvRecords }, none)

/-! ## `miekg/dns` message fragments

Only the parts of `dns.Msg` that `ServeDNS` reads or writes are modelled:
the question section, the answer section, the response code, and the
`Authoritative` / `RecursionAvailable` flags. -/

/-- `dns.TypeA`. -/
def TypeA : Nat := 1

/-- `dns.TypeSRV`. -/
def TypeSRV : Nat := 33

/-- `dns.ClassINET`. -/
def ClassINET : Nat := 1

/-- `dns.RcodeSuccess`. -/
def RcodeSuccess : Nat := 0

/-- `dns.RcodeNameError` (NXDOMAIN). -/
def RcodeNameError : Nat := 3

/-- `dns.RR_Header`: the owner name, record type, class and TTL of an answer. -/
structure RR_Header where
  Name : String
  Rrtype : Nat
  Class : Nat
  Ttl : Nat
  deriving DecidableEq, Repr

/-- `dns.A`: an A answer record. -/
structure A where
  Hdr : RR_Header
  A : IP
  deriving DecidableEq

/-- `dns.SRV`: a SRV answer record. -/
structure SRV where
  Hdr : RR_Header
  Priority : Nat
  Weight : Nat
  Port : Nat
  Target : String
  deriving DecidableEq, Repr

/-- `dns.RR`: the two record kinds this server ever places in an answer
section. -/
inductive RR where
  | a (r : A)
  | srv (r : SRV)
  deriving DecidableEq

/-- `dns.Question`. -/
structure Question where
  Name : String
  Qtype : Nat
  deriving DecidableEq, Repr

/-- The tracked fragment of `dns.Msg`. -/
structure Msg where
  Question : List Question
  Answer : List RR
  Rcode : Nat
  Authoritative : Bool
  RecursionAvailable : Bool
  deriving DecidableEq

/-- `dns.Msg.SetReply` restricted to the tracked fields, applied to the fresh
`&dns.Msg{}` zero value: success code, the first question of the request
copied over (miekg/dns `SetReply` copies `request.Question[0]` only), empty
answer section, `Authoritative` and `RecursionAvailable` left at their zero
value `false` (`SetReply` does not touch them). -/
def Msg.SetReply (r : Msg) : Msg :=
  { Question := r.Question.take 1
    Answer := []
    Rcode := RcodeSuccess
    Authoritative := false
    RecursionAvailable := false }

/-- `dns.Msg.SetRcode` restricted to the tracked fields: miekg/dns `SetRcode`
re-runs `SetReply(request)` (touching only the question and the code among the
tracked fields) and then stores the given code. -/
def Msg.SetRcode (m r : Msg) (rcode : Nat) : Msg :=
  { m with Question := r.Question.take 1, Rcode := rcode }

/-! ## `Server`: value level (`dnsserver.go`)

The Go `Server` holds a domain, a `db.DB`, and listener state.  The network
listener (`Listen`, `Close`, `Listening`) is outside this model.  The store
behind the `db.DB` interface is the `db.Map` above; where a claim concerns an
arbitrary `DB` backend, the `db` call result is abstracted as an explicit
`Except DBError` argument (`Server.GetA` / `Server.GetSRV` are factored into
the interface call and the handling of its result). -/

/-- The modelled part of the `Server` struct: the qualified domain and the
`db.Map` store. -/
structure Server where
  domain : String
  db : Map
  deriving DecidableEq

/-- `NewWithDB`: the stored domain is the constructor argument with a `"."`
appended. -/
def NewWithDB (domain : String) (db : Map) : Server :=
  { domain := domain ++ ".", db := db }

/-- `New`: `NewWithDB(domain, db.NewMap())`. -/
def New (domain : String) : Server :=
  NewWithDB domain NewMap

/-- `Server.qualifyHost`: `host + "." + ds.domain`. -/
def Server.qualifyHost (ds : Server) (host : String) : String :=
  host ++ "." ++ ds.domain

/-- `Server.qualifySrv`: `fmt.Sprintf("_%s._%s.%s", service, protocol, ds.domain)`. -/
def Server.qualifySrv (ds : Server) (service protocol : String) : String :=
  "_" ++ service ++ "._" ++ protocol ++ "." ++ ds.domain

/-- `Server.qualifySrvHost` at the value level: the record with its `Host`
qualified.  (The in-place pointer mutation this performs in Go is modelled in
the pointer layer.) -/
def Server.qualifySrvHost (ds : Server) (srv : SRVRecord) : SRVRecord :=
  { srv with Host := ds.qualifyHost srv.Host }

/-- Result handling of `Server.GetA`: any `db` error (not-found or backend
fault) yields no records; a value yields the single synthesized A record with
TTL 1, class INET, owner name the queried FQDN. -/
def Server.handleGetA (fqdn : String) : Except DBError IP → List A
  | .error _ => []
  | .ok val =>
    [{ Hdr := { Name := fqdn, Rrtype := TypeA, Class := ClassINET, Ttl := 1 }
       A := val }]

/-- `Server.GetA` over the `db.Map` store. -/
def Server.GetA (ds : Server) (fqdn : String) : List A :=
  Server.handleGetA fqdn (ds.db.GetA fqdn)

/-- `Server.SetA`: store under the qualified host name. -/
def Server.SetA (ds : Server) (host : String) (ip : IP) : Server :=
  { ds with db := (ds.db.SetA (ds.qualifyHost host) ip).1 }

/-- `Server.DeleteA`: delete the qualified host name. -/
def Server.DeleteA (ds : Server) (host : String) : Server :=
  { ds with db := (ds.db.DeleteA (ds.qualifyHost host)).1 }

/-- Result handling of `Server.GetSRV`: any `db` error yields no records; a
stored value yields the single synthesized SRV record with TTL 1, class INET,
owner name the queried spec, priority 0, weight 0, the stored port and the
stored (already qualified) host as target. -/
def Server.handleGetSRV (spec : String) : Except DBError SRVRecord → List SRV
  | .error _ => []
  | .ok srv =>
    [{ Hdr := { Name := spec, Rrtype := TypeSRV, Class := ClassINET, Ttl := 1 }
       Priority := 0
       Weight := 0
       Port := srv.Port
       Target := srv.Host }]

/-- `Server.GetSRV` over the `db.Map` store. -/
def Server.GetSRV (ds : Server) (spec : String) : List SRV :=
  Server.handleGetSRV spec (ds.db.GetSRV spec)

/-- `Server.SetSRV`: qualify the record's host, store it under the qualified
service specifier, and pass the store's error (always `none` for `db.Map`)
back to the caller. -/
def Server.SetSRV (ds : Server) (service protocol : String) (srv : SRVRecord) :
    Server × Option DBError :=
  let r := ds.db.SetSRV (ds.qualifySrv service protocol) (ds.qualifySrvHost srv)
  ({ ds with db := r.1 }, r.2)

/-- `Server.DeleteSRV`: delete the qualified service specifier. -/
def Server.DeleteSRV (ds : Server) (service protocol : String) : Server :=
  { ds with db := (ds.db.DeleteSRV (ds.qualifySrv service protocol)).1 }

/-- The answer-accumulation loop of `ServeDNS`: fold over the questions,
appending the `GetA` records for an A question and the `GetSRV` records for a
SRV question; any other question type leaves the accumulator unchanged. -/
def Server.answersFor (ds : Server) (qs : List Question) : List RR :=
  qs.foldl
    (fun answers question =>
      if question.Qtype = TypeA then
        answers ++ (ds.GetA question.Name).map RR.a
      else if question.Qtype = TypeSRV then
        answers ++ (ds.GetSRV question.Name).map RR.srv
      else answers)
    []

/-- The records a single question contributes. -/
def Server.questionAnswers (ds : Server) (q : Question) : List RR :=
  if q.Qtype = TypeA then (ds.GetA q.Name).map RR.a
  else if q.Qtype = TypeSRV then (ds.GetSRV q.Name).map RR.srv
  else []

/-- `Server.ServeDNS` as a pure function from store state and request to the
reply message written to the connection. -/
def Server.ServeDNS (ds : Server) (r : Msg) : Msg :=
  let m := Msg.SetReply r
  let answers := ds.answersFor r.Question
  if answers.length = 0 then
    m.SetRcode r RcodeNameError
  else
    ({ m with
        Authoritative := true
        RecursionAvailable := false
        Answer := answers }).SetRcode r RcodeSuccess

/-! ## Pointer level (`DnsServer.Ptr`)

Go semantics relevant to the aliasing claims:

* a `net.IP` is a slice `[]byte`: a view onto a backing byte array.  The
  expression `rec[:]` in `Map.ListA` re-slices `rec` over the **same** backing
  array — it allocates nothing and copies nothing.
* a `*db.SRVRecord` is a pointer to a record cell.  `Map.SetSRV` stores the
  pointer it is given; `Map.GetSRV` returns the stored pointer; `t := *rec` in
  `Map.ListSRV` copies the cell into a fresh one and returns `&t`.

We model both with an explicit heap: `ipCells` is the arena of slice backing
arrays and `srvCells` the arena of `SRVRecord` cells; a `net.IP` value or a
`*SRVRecord` value is an index (location) into the respective arena. -/

namespace Ptr

/-- The heap: backing byte arrays of `net.IP` slices, and `SRVRecord` cells. -/
structure Heap where
  ipCells : List (List Nat)
  srvCells : List SRVRecord
  deriving DecidableEq

/-- Read the bytes a `net.IP` location views. -/
def Heap.derefIP (h : Heap) (loc : Nat) : Option (List Nat) :=
  h.ipCells[loc]?

/-- Read the cell a `*SRVRecord` location points to. -/
def Heap.derefSRV (h : Heap) (loc : Nat) : Option SRVRecord :=
  h.srvCells[loc]?

/-- Write bytes through a `net.IP` location (in-place mutation of the backing
array, e.g. `ip[0] = 5` or `copy(ip, other)` on the Go side). -/
def Heap.writeIP (h : Heap) (loc : Nat) (bytes : List Nat) : Heap :=
  { h with ipCells := h.ipCells.set loc bytes }

/-- Write a record value through a `*SRVRecord` pointer (`*p = v`, or a field
assignment on the Go side). -/
def Heap.writeSRV (h : Heap) (loc : Nat) (v : SRVRecord) : Heap :=
  { h with srvCells := h.srvCells.set loc v }

/-- Allocate a fresh `SRVRecord` cell (`t := ...; &t`). -/
def Heap.allocSRV (h : Heap) (v : SRVRecord) : Heap × Nat :=
  ({ h with srvCells := h.srvCells ++ [v] }, h.srvCells.length)

/-- `db.Map` at the pointer level: names bound to heap locations. -/
structure Map where
  aRecords : List (String × Nat)
  srvRecords : List (String × Nat)
  deriving DecidableEq

/-- `Map.GetA` at the pointer level: returns the stored slice itself. -/
def Map.GetA (m : Map) (fqdn : String) : Except DBError Nat :=
  match lookupKey fqdn m.aRecords with
  | some loc => .ok loc
  | none => .error .notFound

/-- `Map.ListA` at the pointer level: `tmp[name] = rec[:]` — the fresh map
binds each name to a re-slice of the stored `net.IP`, i.e. to the **same**
backing-array location; no byte is copied. -/
def Map.ListA (m : Map) : List (String × Nat) :=
  m.aRecords.map (fun p => (p.1, p.2))

/-- `Map.GetSRV` at the pointer level: returns the stored pointer itself. -/
def Map.GetSRV (m : Map) (spec : String) : Except DBError Nat :=
  match lookupKey spec m.srvRecords with
  | some loc => .ok loc
  | none => .error .notFound

/-- `Map.SetSRV` at the pointer level: stores the caller's pointer. -/
def Map.SetSRV (m : Map) (spec : String) (srv : Nat) : Map × Option DBError :=
  ({ m with srvRecords := upsert spec srv m.srvRecords }, none)

/-- `Map.ListSRV` at the pointer level: `t := *rec; tmp[name] = &t` — each
stored cell is copied into a freshly allocated cell and the fresh pointer is
returned. -/
def Map.ListSRV (h : Heap) (m : Map) : Heap × List (String × Nat) :=
  m.srvRecords.foldl
    (fun acc p =>
      match acc.1.derefSRV p.2 with
      | some cell =>
        let a := acc.1.allocSRV cell
        (a.1, acc.2 ++ [(p.1, a.2)])
      | none => acc)
    (h, [])

/-- `Server.GetA` at the pointer level: the synthesized A answer views the
stored slice's bytes. -/
def Server.GetA (h : Heap) (m : Map) (fqdn : String) : List A :=
  match Map.GetA m fqdn with
  | .error _ => []
  | .ok loc =>
    match h.derefIP loc with
    | some bytes =>
      [{ Hdr := { Name := fqdn, Rrtype := TypeA, Class := ClassINET, Ttl := 1 }
         A := bytes }]
    | none => []

/-- `Server.qualifySrvHost` at the pointer level: `srv.Host =
ds.qualifyHost(srv.Host)` writes through the caller's pointer and returns that
same pointer.  `domain` is the server's (dot-terminated) domain field. -/
def Server.qualifySrvHost (domain : String) (h : Heap) (srv : Nat) : Heap × Nat :=
  match h.derefSRV srv with
  | some cell => (h.writeSRV srv { cell with Host := cell.Host ++ "." ++ domain }, srv)
  | none => (h, srv)

/-- `Server.SetSRV` at the pointer level: qualify the record's host in place,
then store the (unchanged) pointer under the qualified specifier. -/
def Server.SetSRV (domain : String) (h : Heap) (m : Map) (service protocol : String)
    (srv : Nat) : Heap × Map × Option DBError :=
  let q := Server.qualifySrvHost domain h srv
  let r := Map.SetSRV m ("_" ++ service ++ "._" ++ protocol ++ "." ++ domain) q.2
  (q.1, r.1, r.2)

/-- `Server.GetSRV` at the pointer level: the synthesized SRV answer reads the
stored cell through the stored pointer. -/
def Server.GetSRV (h : Heap) (m : Map) (spec : String) : List SRV :=
  match Map.GetSRV m spec with
  | .error _ => []
  | .ok loc =>
    match h.derefSRV loc with
    | some srv =>
      [{ Hdr := { Name := spec, Rrtype := TypeSRV, Class := ClassINET, Ttl := 1 }
         Priority := 0
         Weight := 0
         Port := srv.Port
         Target := srv.Host }]
    | none => []

end Ptr

/-! ## Shared lemmas about the Go-map operations -/

theorem lookupKey_upsert_self {α : Type} (k : String) (v : α) (recs : List (String × α)) :
    lookupKey k (upsert k v recs) = some v := by
  simp [upsert, lookupKey]

theorem lookupKey_eraseKey_self {α : Type} (k : String) (recs : List (String × α)) :
    lookupKey k (eraseKey k recs) = none := by
  induction recs with
  | nil => rfl
  | cons p rest ih =>
    by_cases h : p.1 = k
    · simpa [eraseKey, h] using ih
    · simp [eraseKey, h, lookupKey, ih]

theorem lookupKey_eraseKey_ne {α : Type} (k k' : String) (recs : List (String × α))
    (h : k' ≠ k) : lookupKey k' (eraseKey k recs) = lookupKey k' recs := by
  induction recs with
  | nil => rfl
  | cons p rest ih =>
    have hkk : ¬ k = k' := fun hk => h hk.symm
    by_cases hp : p.1 = k
    · simp [eraseKey, hp, lookupKey, hkk, ih]
    · simp [eraseKey, hp, lookupKey, ih]

theorem lookupKey_upsert_ne {α : Type} (k k' : String) (v : α) (recs : List (String × α))
    (h : k' ≠ k) : lookupKey k' (upsert k v recs) = lookupKey k' recs := by
  have hkk : ¬ k = k' := fun hk => h hk.symm
  simp [upsert, lookupKey, hkk, lookupKey_eraseKey_ne k k' recs h]

theorem eraseKey_of_lookupKey_none {α : Type} (k : String) (recs : List (String × α))
    (h : lookupKey k recs = none) : eraseKey k recs = recs := by
  induction recs with
  | nil => rfl
  | cons p rest ih =>
    by_cases hp : p.1 = k
    · simp [lookupKey, hp] at h
    · simp [lookupKey, hp] at h
      simp [eraseKey, hp, ih h]

theorem eraseKey_eraseKey {α : Type} (k : String) (recs : List (String × α)) :
    eraseKey k (eraseKey k recs) = eraseKey k recs := by
  induction recs with
  | nil => rfl
  | cons p rest ih =>
    by_cases hp : p.1 = k
    · simp [eraseKey, hp, ih]
    · simp [eraseKey, hp, ih]

theorem upsert_upsert_self {α : Type} (k : String) (v : α) (recs : List (String × α)) :
    upsert k v (upsert k v recs) = upsert k v recs := by
  simp [upsert, eraseKey, eraseKey_eraseKey]

/-! ## Shared lemmas about the request handler -/

/-- The accumulation loop is the concatenation, in question order, of each
question's contribution. -/
theorem Server.answersFor_eq_join (ds : Server) (qs : List Question) :
    ds.answersFor qs = (qs.map ds.questionAnswers).flatten := by
  have hTS : ¬ TypeSRV = TypeA := by decide
  have key : ∀ (l : List Question) (acc : List RR),
      l.foldl
        (fun answers question =>
          if question.Qtype = TypeA then
            answers ++ (ds.GetA question.Name).map RR.a
          else if question.Qtype = TypeSRV then
            answers ++ (ds.GetSRV question.Name).map RR.srv
          else answers)
        acc
      = acc ++ (l.map ds.questionAnswers).flatten := by
    intro l
    induction l with
    | nil => intro acc; simp
    | cons q rest ih =>
      intro acc
      by_cases hA : q.Qtype = TypeA
      · simp [List.foldl_cons, hA, ih, Server.questionAnswers]
      · by_cases hS : q.Qtype = TypeSRV
        · simp [List.foldl_cons, hA, hS, hTS, ih, Server.questionAnswers]
        · simp [List.foldl_cons, hA, hS, ih, Server.questionAnswers]
  simpa [Server.answersFor] using key qs []

/-- Reply shape when no answer was accumulated. -/
theorem Server.ServeDNS_of_answers_nil (ds : Server) (r : Msg)
    (h : ds.answersFor r.Question = []) :
    ds.ServeDNS r =
      { Question := r.Question.take 1
        Answer := []
        Rcode := RcodeNameError
        Authoritative := false
        RecursionAvailable := false } := by
  simp [Server.ServeDNS, h, Msg.SetReply, Msg.SetRcode]

/-- Reply shape when at least one answer was accumulated. -/
theorem Server.ServeDNS_of_answers_ne_nil (ds : Server) (r : Msg)
    (h : ds.answersFor r.Question ≠ []) :
    ds.ServeDNS r =
      { Question := r.Question.take 1
        Answer := ds.answersFor r.Question
        Rcode := RcodeSuccess
        Authoritative := true
        RecursionAvailable := false } := by
  have hlen : ¬ (ds.answersFor r.Question).length = 0 := by
    simpa [List.length_eq_zero] using h
  simp [Server.ServeDNS, hlen, Msg.SetReply, Msg.SetRcode]

/-! ## The claims -/

/-- Claim C2: for every host and address, after `SetA(host, a)` a query for the
qualified name of the host with question type A yields exactly one A answer
whose address is `a`, with TTL 1, class INET, and owner name equal to the
queried qualified name. -/
theorem setA_roundtrip_query (ds : Server) (host : String) (a : IP) (r : Msg)
    (hq : r.Question = [{ Name := ds.qualifyHost host, Qtype := TypeA }]) :
    ((ds.SetA host a).ServeDNS r).Answer
      = [RR.a { Hdr := { Name := ds.qualifyHost host, Rrtype := TypeA,
                         Class := ClassINET, Ttl := 1 }
                A := a }] := by
  have hans : (ds.SetA host a).answersFor r.Question
      = [RR.a { Hdr := { Name := ds.qualifyHost host, Rrtype := TypeA,
                         Class := ClassINET, Ttl := 1 }
                A := a }] := by
    simp [hq, Server.answersFor, Server.GetA, Server.SetA, Map.SetA, Map.GetA,
          Server.handleGetA, Server.qualifyHost, lookupKey_upsert_self]
  rw [Server.ServeDNS_of_answers_ne_nil _ _ (by simp [hans])]
  simp [hans]

/-- Witness for C2 at a concrete input. -/
theorem setA_roundtrip_query_witness :
    (((New "docker").SetA "test" [127, 0, 0, 2]).ServeDNS
        { Question := [{ Name := (New "docker").qualifyHost "test", Qtype := TypeA }]
          Answer := []
          Rcode := 0
          Authoritative := false
          RecursionAvailable := false }).Answer
      = [RR.a { Hdr := { Name := (New "docker").qualifyHost "test", Rrtype := TypeA,
                         Class := ClassINET, Ttl := 1 }
                A := [127, 0, 0, 2] }] :=
  setA_roundtrip_query (New "docker") "test" [127, 0, 0, 2]
    { Question := [{ Name := (New "docker").qualifyHost "test", Qtype := TypeA }]
      Answer := []
      Rcode := 0
      Authoritative := false
      RecursionAvailable := false }
    rfl

/-- Claim C3: synthesis from a stored SRV value and the queried specifier
produces exactly one resource record of type SRV, class INET, TTL 1, owner
name the queried specifier verbatim, priority 0 and weight 0, port the stored
port and target the stored host; and registration stores, under the qualified
specifier, the record's port together with the host qualified at registration
time. -/
theorem setSRV_getSRV_synthesis (ds : Server) (service protocol spec : String)
    (srv stored : SRVRecord) :
    (ds.db.GetSRV spec = .ok stored →
      ds.GetSRV spec
        = [{ Hdr := { Name := spec, Rrtype := TypeSRV, Class := ClassINET, Ttl := 1 }
             Priority := 0
             Weight := 0
             Port := stored.Port
             Target := stored.Host }])
    ∧ (ds.SetSRV service protocol srv).1.db.GetSRV (ds.qualifySrv service protocol)
        = .ok { Port := srv.Port, Host := ds.qualifyHost srv.Host } := by
  constructor
  · intro h
    simp [Server.GetSRV, h, Server.handleGetSRV]
  · simp [Server.SetSRV, Map.SetSRV, Map.GetSRV, Server.qualifySrvHost,
          Server.qualifyHost, lookupKey_upsert_self]

/-- Witness for C3 at a concrete input. -/
theorem setSRV_getSRV_synthesis_witness :
    ((New "docker").SetSRV "test" "tcp" { Port := 80, Host := "test" }).1.GetSRV
        ((New "docker").qualifySrv "test" "tcp")
      = [{ Hdr := { Name := (New "docker").qualifySrv "test" "tcp", Rrtype := TypeSRV,
                    Class := ClassINET, Ttl := 1 }
           Priority := 0
           Weight := 0
           Port := 80
           Target := (New "docker").qualifyHost "test" }]
    ∧ ((New "docker").SetSRV "test" "tcp" { Port := 80, Host := "test" }).1.db.GetSRV
        ((New "docker").qualifySrv "test" "tcp")
      = .ok { Port := 80, Host := (New "docker").qualifyHost "test" } := by
  obtain ⟨-, h2⟩ := setSRV_getSRV_synthesis (New "docker") "test" "tcp"
    ((New "docker").qualifySrv "test" "tcp") { Port := 80, Host := "test" }
    { Port := 80, Host := (New "docker").qualifyHost "test" }
  obtain ⟨h1, -⟩ := setSRV_getSRV_synthesis
    ((New "docker").SetSRV "test" "tcp" { Port := 80, Host := "test" }).1
    "test" "tcp" ((New "docker").qualifySrv "test" "tcp") { Port := 80, Host := "test" }
    { Port := 80, Host := (New "docker").qualifyHost "test" }
  exact ⟨h1 h2, h2⟩

/-- Claim C8: `qualifyHost(host)` is `host + "." + domain` and
`qualifySrv(service, protocol)` is `"_" + service + "._" + protocol + "." +
domain`, where `domain` is the suffix fixed at construction with a `"."`
appended, hence always dot-terminated; the functions are pure concatenation,
with no other normalization. -/
theorem qualify_functions_spec (d host service protocol : String) (dbv : Map) :
    (NewWithDB d dbv).qualifyHost host = host ++ "." ++ (NewWithDB d dbv).domain
    ∧ (NewWithDB d dbv).qualifySrv service protocol
        = "_" ++ service ++ "._" ++ protocol ++ "." ++ (NewWithDB d dbv).domain
    ∧ (NewWithDB d dbv).domain = d ++ "."
    ∧ (NewWithDB d dbv).domain.data.getLast? = some '.' := by
  refine ⟨rfl, rfl, rfl, ?_⟩
  simp [NewWithDB, String.data_append]

/-- Claim C9: a store error during lookup — not-found or any backend fault —
degrades to zero answers for that question (never a raised error, never a
partial answer), and not-found is indistinguishable from a backend fault in
the response. -/
theorem lookup_errors_degrade_to_no_answer (fqdn spec msg : String) (e : DBError) :
    Server.handleGetA fqdn (.error e) = []
    ∧ Server.handleGetSRV spec (.error e) = []
    ∧ Server.handleGetA fqdn (.error .notFound)
        = Server.handleGetA fqdn (.error (.backend msg))
    ∧ Server.handleGetSRV spec (.error .notFound)
        = Server.handleGetSRV spec (.error (.backend msg)) :=
  ⟨rfl, rfl, rfl, rfl⟩

/-- Claim C4: after processing all questions, an empty answer accumulation
yields a name-error reply with no answers and neither flag asserted; a
non-empty one yields a success reply with `Authoritative = true`,
`RecursionAvailable = false` and the answers in the order the matching
questions were processed (the accumulation is the concatenation of the
per-question contributions in question order); a question of any other type
contributes no answer and causes no error. -/
theorem serveDNS_reply_shape (ds : Server) (r : Msg) :
    (ds.answersFor r.Question = [] →
      ds.ServeDNS r
        = { Question := r.Question.take 1
            Answer := []
            Rcode := RcodeNameError
            Authoritative := false
            RecursionAvailable := false })
    ∧ (ds.answersFor r.Question ≠ [] →
      ds.ServeDNS r
        = { Question := r.Question.take 1
            Answer := ds.answersFor r.Question
            Rcode := RcodeSuccess
            Authoritative := true
            RecursionAvailable := false })
    ∧ ds.answersFor r.Question = (r.Question.map ds.questionAnswers).flatten
    ∧ (∀ q : Question, q.Qtype ≠ TypeA → q.Qtype ≠ TypeSRV → ds.questionAnswers q = []) := by
  refine ⟨Server.ServeDNS_of_answers_nil ds r, Server.ServeDNS_of_answers_ne_nil ds r,
          Server.answersFor_eq_join ds r.Question, ?_⟩
  intro q hA hS
  simp [Server.questionAnswers, hA, hS]

/-- Witness for C4: the name-error branch at an empty store and the success
branch after a `SetA`. -/
theorem serveDNS_reply_shape_witness :
    ((New "docker").ServeDNS
        { Question := [{ Name := "nope.docker.", Qtype := TypeA }]
          Answer := []
          Rcode := 0
          Authoritative := false
          RecursionAvailable := false })
      = { Question := [{ Name := "nope.docker.", Qtype := TypeA }]
          Answer := []
          Rcode := RcodeNameError
          Authoritative := false
          RecursionAvailable := false }
    ∧ (((New "docker").SetA "test" [127, 0, 0, 2]).ServeDNS
        { Question := [{ Name := (New "docker").qualifyHost "test", Qtype := TypeA }]
          Answer := []
          Rcode := 0
          Authoritative := false
          RecursionAvailable := false })
      = { Question := [{ Name := (New "docker").qualifyHost "test", Qtype := TypeA }]
          Answer := ((New "docker").SetA "test" [127, 0, 0, 2]).answersFor
            [{ Name := (New "docker").qualifyHost "test", Qtype := TypeA }]
          Rcode := RcodeSuccess
          Authoritative := true
          RecursionAvailable := false } := by
  refine ⟨(serveDNS_reply_shape (New "docker")
      { Question := [{ Name := "nope.docker.", Qtype := TypeA }]
        Answer := []
        Rcode := 0
        Authoritative := false
        RecursionAvailable := false }).1 (by decide),
    ((serveDNS_reply_shape ((New "docker").SetA "test" [127, 0, 0, 2])
      { Question := [{ Name := (New "docker").qualifyHost "test", Qtype := TypeA }]
        Answer := []
        Rcode := 0
        Authoritative := false
        RecursionAvailable := false }).2.1 (by decide))⟩

/-- Claim C5: after deleting a previously set A or SRV record, a query for the
corresponding name or specifier returns zero answers and response code
name-error. -/
theorem delete_then_query_name_error (ds : Server) (host : String) (ip : IP)
    (service protocol : String) (srv : SRVRecord) (q1 q2 : Msg)
    (hq1 : q1.Question = [{ Name := ds.qualifyHost host, Qtype := TypeA }])
    (hq2 : q2.Question = [{ Name := ds.qualifySrv service protocol, Qtype := TypeSRV }]) :
    ((ds.SetA host ip).DeleteA host).ServeDNS q1
      = { Question := q1.Question.take 1
          Answer := []
          Rcode := RcodeNameError
          Authoritative := false
          RecursionAvailable := false }
    ∧ ((ds.SetSRV service protocol srv).1.DeleteSRV service protocol).ServeDNS q2
      = { Question := q2.Question.take 1
          Answer := []
          Rcode := RcodeNameError
          Authoritative := false
          RecursionAvailable := false } := by
  have hTS : ¬ TypeSRV = TypeA := by decide
  constructor
  · apply Server.ServeDNS_of_answers_nil
    simp [hq1, Server.answersFor, Server.GetA, Server.DeleteA, Server.SetA, Map.SetA,
          Map.DeleteA, Map.GetA, Server.handleGetA, Server.qualifyHost,
          lookupKey_eraseKey_self]
  · apply Server.ServeDNS_of_answers_nil
    simp [hq2, Server.answersFor, Server.GetSRV, Server.DeleteSRV, Server.SetSRV,
          Map.SetSRV, Map.DeleteSRV, Map.GetSRV, Server.handleGetSRV, Server.qualifySrv,
          hTS, lookupKey_eraseKey_self]

/-- Witness for C5 at concrete inputs. -/
theorem delete_then_query_name_error_witness :
    (((New "docker").SetA "test" [127, 0, 0, 2]).DeleteA "test").ServeDNS
        { Question := [{ Name := (New "docker").qualifyHost "test", Qtype := TypeA }]
          Answer := []
          Rcode := 0
          Authoritative := false
          RecursionAvailable := false }
      = { Question := [{ Name := (New "docker").qualifyHost "test", Qtype := TypeA }]
          Answer := []
          Rcode := RcodeNameError
          Authoritative := false
          RecursionAvailable := false }
    ∧ (((New "docker").SetSRV "svc" "tcp" { Port := 80, Host := "h" }).1.DeleteSRV
          "svc" "tcp").ServeDNS
        { Question := [{ Name := (New "docker").qualifySrv "svc" "tcp", Qtype := TypeSRV }]
          Answer := []
          Rcode := 0
          Authoritative := false
          RecursionAvailable := false }
      = { Question := [{ Name := (New "docker").qualifySrv "svc" "tcp", Qtype := TypeSRV }]
          Answer := []
          Rcode := RcodeNameError
          Authoritative := false
          RecursionAvailable := false } :=
  delete_then_query_name_error (New "docker") "test" [127, 0, 0, 2] "svc" "tcp"
    { Port := 80, Host := "h" }
    { Question := [{ Name := (New "docker").qualifyHost "test", Qtype := TypeA }]
      Answer := []
      Rcode := 0
      Authoritative := false
      RecursionAvailable := false }
    { Question := [{ Name := (New "docker").qualifySrv "svc" "tcp", Qtype := TypeSRV }]
      Answer := []
      Rcode := 0
      Authoritative := false
      RecursionAvailable := false }
    rfl rfl

/-- Claim C6 is false on the code (counterexample): registering a SRV record
with an empty host is not rejected — the call returns no error, and the store
is mutated. -/
theorem setSRV_empty_host_not_rejected :
    ((New "docker").SetSRV "svc" "tcp" { Port := 80, Host := "" }).2 = none
    ∧ ((New "docker").SetSRV "svc" "tcp" { Port := 80, Host := "" }).1.db
        ≠ (New "docker").db := by
  exact ⟨rfl, by decide⟩

/-- Claim C6 (amended): `SetSRV` performs no host validation: a registration
with an empty host succeeds (returns no error) and stores, under the qualified
specifier, a record whose host is the qualified empty string `"." + domain`. -/
theorem setSRV_empty_host_accepted (ds : Server) (service protocol : String) (port : Nat) :
    (ds.SetSRV service protocol { Port := port, Host := "" }).2 = none
    ∧ (ds.SetSRV service protocol { Port := port, Host := "" }).1.db.GetSRV
        (ds.qualifySrv service protocol)
      = .ok { Port := port, Host := "." ++ ds.domain } := by
  constructor
  · rfl
  · simp [Server.SetSRV, Map.SetSRV, Map.GetSRV, Server.qualifySrvHost,
          Server.qualifyHost, lookupKey_upsert_self]

/-- Claim C7: `Set` is an idempotent upsert that always succeeds (never
rejects, overwrites an existing binding), and `Delete` of an absent key is a
no-op that returns success. -/
theorem map_upsert_delete_semantics (m : Map) (host spec : String) (ip : IP)
    (srv : SRVRecord) :
    (m.SetA host ip).2 = none
    ∧ (m.SetA host ip).1.GetA host = .ok ip
    ∧ ((m.SetA host ip).1.SetA host ip).1 = (m.SetA host ip).1
    ∧ (m.SetSRV spec srv).2 = none
    ∧ (m.SetSRV spec srv).1.GetSRV spec = .ok srv
    ∧ ((m.SetSRV spec srv).1.SetSRV spec srv).1 = (m.SetSRV spec srv).1
    ∧ (m.DeleteA host).2 = none
    ∧ (m.DeleteSRV spec).2 = none
    ∧ (m.GetA host = .error .notFound → (m.DeleteA host).1 = m)
    ∧ (m.GetSRV spec = .error .notFound → (m.DeleteSRV spec).1 = m) := by
  refine ⟨rfl, ?_, ?_, rfl, ?_, ?_, rfl, rfl, ?_, ?_⟩
  · simp [Map.SetA, Map.GetA, lookupKey_upsert_self]
  · simp [Map.SetA, upsert_upsert_self]
  · simp [Map.SetSRV, Map.GetSRV, lookupKey_upsert_self]
  · simp [Map.SetSRV, upsert_upsert_self]
  · intro h
    have hnone : lookupKey host m.aRecords = none := by
      cases hl : lookupKey host m.aRecords with
      | none => rfl
      | some v => simp [Map.GetA, hl] at h
    simp [Map.DeleteA, eraseKey_of_lookupKey_none _ _ hnone]
  · intro h
    have hnone : lookupKey spec m.srvRecords = none := by
      cases hl : lookupKey spec m.srvRecords with
      | none => rfl
      | some v => simp [Map.GetSRV, hl] at h
    simp [Map.DeleteSRV, eraseKey_of_lookupKey_none _ _ hnone]

/-- Witness for C7 at a concrete input. -/
theorem map_upsert_delete_semantics_witness :
    (NewMap.SetA "test.docker." [127, 0, 0, 2]).2 = none
    ∧ (NewMap.SetA "test.docker." [127, 0, 0, 2]).1.GetA "test.docker."
        = .ok [127, 0, 0, 2]
    ∧ ((NewMap.SetA "test.docker." [127, 0, 0, 2]).1.SetA "test.docker." [127, 0, 0, 2]).1
        = (NewMap.SetA "test.docker." [127, 0, 0, 2]).1
    ∧ (NewMap.SetSRV "_svc._tcp.docker." { Port := 80, Host := "h.docker." }).2 = none
    ∧ (NewMap.SetSRV "_svc._tcp.docker." { Port := 80, Host := "h.docker." }).1.GetSRV
        "_svc._tcp.docker." = .ok { Port := 80, Host := "h.docker." }
    ∧ ((NewMap.SetSRV "_svc._tcp.docker." { Port := 80, Host := "h.docker." }).1.SetSRV
          "_svc._tcp.docker." { Port := 80, Host := "h.docker." }).1
        = (NewMap.SetSRV "_svc._tcp.docker." { Port := 80, Host := "h.docker." }).1
    ∧ (NewMap.DeleteA "test.docker.").2 = none
    ∧ (NewMap.DeleteSRV "_svc._tcp.docker.").2 = none
    ∧ (NewMap.DeleteA "test.docker.").1 = NewMap
    ∧ (NewMap.DeleteSRV "_svc._tcp.docker.").1 = NewMap := by
  obtain ⟨a1, a2, a3, a4, a5, a6, a7, a8, a9, a10⟩ :=
    map_upsert_delete_semantics NewMap "test.docker." "_svc._tcp.docker." [127, 0, 0, 2]
      { Port := 80, Host := "h.docker." }
  exact ⟨a1, a2, a3, a4, a5, a6, a7, a8, a9 rfl, a10 rfl⟩

/-- Claim C1 fails on the code (failing input): `Map.ListA` binds each name to
`rec[:]`, a re-slice over the same backing array as the stored `net.IP`, so
the listing hands out the very location the store holds (first conjunct).
Writing bytes through the listed address (here `5.4.3.2` over `127.0.0.2`)
changes the address the store itself subsequently serves (second and third
conjuncts): the listing is not an independent deep snapshot.  (`Map.ListSRV`
does copy each cell, so only the A listing is affected.) -/
theorem listA_alias_mutation_visible :
    Ptr.Map.ListA { aRecords := [("test.docker.", 0)], srvRecords := [] }
      = [("test.docker.", 0)]
    ∧ Ptr.Server.GetA { ipCells := [[127, 0, 0, 2]], srvCells := [] }
        { aRecords := [("test.docker.", 0)], srvRecords := [] } "test.docker."
      = [{ Hdr := { Name := "test.docker.", Rrtype := TypeA, Class := ClassINET, Ttl := 1 }
           A := [127, 0, 0, 2] }]
    ∧ Ptr.Server.GetA
        (Ptr.Heap.writeIP { ipCells := [[127, 0, 0, 2]], srvCells := [] } 0 [5, 4, 3, 2])
        { aRecords := [("test.docker.", 0)], srvRecords := [] } "test.docker."
      = [{ Hdr := { Name := "test.docker.", Rrtype := TypeA, Class := ClassINET, Ttl := 1 }
           A := [5, 4, 3, 2] }]
    ∧ ([127, 0, 0, 2] : List Nat) ≠ [5, 4, 3, 2] := by
  refine ⟨by decide, by decide, by decide, by decide⟩

/-- Claim C10: `SetSRV(service, protocol, srv)` rewrites the caller's record
in place — its `Host` field becomes `Host + "." + domain` — and the store
retains that very pointer, so any later write through the caller's pointer is
visible in subsequent `GetSRV` results. -/
theorem setSRV_retains_caller_pointer (domain : String) (h : Ptr.Heap) (m : Ptr.Map)
    (service protocol : String) (srv : Nat) (cell : SRVRecord)
    (hcell : h.derefSRV srv = some cell) :
    ((Ptr.Server.SetSRV domain h m service protocol srv).1.derefSRV srv
        = some { Port := cell.Port, Host := cell.Host ++ "." ++ domain })
    ∧ (Ptr.Map.GetSRV (Ptr.Server.SetSRV domain h m service protocol srv).2.1
          ("_" ++ service ++ "._" ++ protocol ++ "." ++ domain)
        = .ok srv)
    ∧ ∀ v : SRVRecord,
        Ptr.Server.GetSRV
            ((Ptr.Server.SetSRV domain h m service protocol srv).1.writeSRV srv v)
            (Ptr.Server.SetSRV domain h m service protocol srv).2.1
            ("_" ++ service ++ "._" ++ protocol ++ "." ++ domain)
          = [{ Hdr := { Name := "_" ++ service ++ "._" ++ protocol ++ "." ++ domain,
                        Rrtype := TypeSRV, Class := ClassINET, Ttl := 1 }
               Priority := 0
               Weight := 0
               Port := v.Port
               Target := v.Host }] := by
  have hset : ∀ (v : SRVRecord), ((Ptr.Heap.writeSRV h srv v).derefSRV srv) = some v := by
    intro v
    have hlt : srv < h.srvCells.length := by
      by_contra hge
      have : h.srvCells[srv]? = none := List.getElem?_eq_none (Nat.le_of_not_lt hge)
      rw [Ptr.Heap.derefSRV, this] at hcell
      exact Option.noConfusion hcell
    simp [Ptr.Heap.derefSRV, Ptr.Heap.writeSRV, List.getElem?_set_self', hlt]
  refine ⟨?_, ?_, ?_⟩
  · simp [Ptr.Server.SetSRV, Ptr.Server.qualifySrvHost, hcell, Ptr.Map.SetSRV, hset]
  · simp [Ptr.Server.SetSRV, Ptr.Server.qualifySrvHost, hcell, Ptr.Map.SetSRV,
          Ptr.Map.GetSRV, lookupKey_upsert_self]
  · intro v
    have hget : Ptr.Map.GetSRV (Ptr.Server.SetSRV domain h m service protocol srv).2.1
        ("_" ++ service ++ "._" ++ protocol ++ "." ++ domain) = .ok srv := by
      simp [Ptr.Server.SetSRV, Ptr.Server.qualifySrvHost, hcell, Ptr.Map.SetSRV,
            Ptr.Map.GetSRV, lookupKey_upsert_self]
    have hw : ((Ptr.Server.SetSRV domain h m service protocol srv).1.writeSRV srv v).derefSRV
        srv = some v := by
      simp only [Ptr.Server.SetSRV, Ptr.Server.qualifySrvHost, hcell]
      have hlt : srv < h.srvCells.length := by
        by_contra hge
        have : h.srvCells[srv]? = none := List.getElem?_eq_none (Nat.le_of_not_lt hge)
        rw [Ptr.Heap.derefSRV, this] at hcell
        exact Option.noConfusion hcell
      simp [Ptr.Heap.derefSRV, Ptr.Heap.writeSRV, List.getElem?_set_self', hlt]
    simp [Ptr.Server.GetSRV, hget, hw]

/-- Witness for C10 at a concrete input: registering `{Port 80, Host "test"}`
through pointer `0` and then overwriting that record through the caller's
pointer is visible in `GetSRV`. -/
theorem setSRV_retains_caller_pointer_witness :
    ((Ptr.Server.SetSRV "docker." { ipCells := [], srvCells := [{ Port := 80, Host := "test" }] }
          { aRecords := [], srvRecords := [] } "test" "tcp" 0).1.derefSRV 0
        = some { Port := 80, Host := "test" ++ "." ++ "docker." })
    ∧ (Ptr.Map.GetSRV
          (Ptr.Server.SetSRV "docker." { ipCells := [], srvCells := [{ Port := 80, Host := "test" }] }
            { aRecords := [], srvRecords := [] } "test" "tcp" 0).2.1
          ("_" ++ "test" ++ "._" ++ "tcp" ++ "." ++ "docker.")
        = .ok 0)
    ∧ Ptr.Server.GetSRV
          ((Ptr.Server.SetSRV "docker." { ipCells := [], srvCells := [{ Port := 80, Host := "test" }] }
              { aRecords := [], srvRecords := [] } "test" "tcp" 0).1.writeSRV 0
            { Port := 9999, Host := "evil" })
          (Ptr.Server.SetSRV "docker." { ipCells := [], srvCells := [{ Port := 80, Host := "test" }] }
            { aRecords := [], srvRecords := [] } "test" "tcp" 0).2.1
          ("_" ++ "test" ++ "._" ++ "tcp" ++ "." ++ "docker.")
        = [{ Hdr := { Name := "_" ++ "test" ++ "._" ++ "tcp" ++ "." ++ "docker.",
                      Rrtype := TypeSRV, Class := ClassINET, Ttl := 1 }
             Priority := 0
             Weight := 0
             Port := 9999
             Target := "evil" }] := by
  obtain ⟨h1, h2, h3⟩ := setSRV_retains_caller_pointer "docker."
    { ipCells := [], srvCells := [{ Port := 80, Host := "test" }] }
    { aRecords := [], srvRecords := [] } "test" "tcp" 0 { Port := 80, Host := "test" } rfl
  exact ⟨h1, h2, h3 { Port := 9999, Host := "evil" }⟩

end DnsServer
